import Mathlib

/-!
Verification of the token-windowing datasets, the cosine warmup
learning-rate scheduler, and the gradient-norm diagnostics of the
stolen-probability-ptl training script.

The embedding mirrors `src/train_lm.py` and `src/modules/lr_scheduler.py`:
token buffers are lists of integers, Python integers are `Int`, Python
`divmod` is `Int.fdiv` / `Int.fmod` (floor division, remainder with the
divisor's sign), Python indexing (with its negative wrap-around) and
slicing are modelled explicitly, and an operation that can raise
(`IndexError`, `NameError`, `ZeroDivisionError`) returns an `Option` or
`Except` that is `none` / `error` exactly on the raising inputs.
-/

/-- Python indexing `xs[i]`: a non-negative index is used directly, a
negative index `i` with `-len xs ≤ i` wraps to `len xs + i`, and anything
else raises `IndexError` (modelled as `none`). -/
def pyGet {α : Type} (xs : List α) (i : ℤ) : Option α :=
  if 0 ≤ i then xs.get? i.toNat
  else if 0 ≤ i + xs.length then xs.get? (i + xs.length).toNat
  else none

/-- Python slicing `xs[a:b]` with step 1: each bound is wrapped when
negative and clamped into `[0, len xs]`; slicing never raises. -/
def pySlice {α : Type} (xs : List α) (a b : ℤ) : List α :=
  let n : ℤ := xs.length
  let lo := if a < 0 then max (n + a) 0 else min a n
  let hi := if b < 0 then max (n + b) 0 else min b n
  (xs.drop lo.toNat).take (hi - lo).toNat

/-- Length of the packed dataset, `Wikitext103Dataset.__len__`:
`self.data.size(0) - 1`. -/
def Wikitext103Dataset.len (data : List (List ℤ)) : ℤ :=
  (data.length : ℤ) - 1

/-- Item access of the packed dataset, `Wikitext103Dataset.__getitem__`:
`tokens = self.data[idx]; last_label = self.data[idx+1][0]`; any of the
three index operations may raise `IndexError`. -/
def Wikitext103Dataset.getitem (data : List (List ℤ)) (idx : ℤ) :
    Option (List ℤ × ℤ) := do
  let tokens ← pyGet data idx
  let nextRow ← pyGet data (idx + 1)
  let lastLabel ← pyGet nextRow 0
  pure (tokens, lastLabel)

/-- The `tokens` component of `Wikitext103Dataset.__getitem__`, i.e. the
input row `self.data[idx]` that `get(idx)` addresses. -/
def Wikitext103Dataset.input (data : List (List ℤ)) (idx : ℤ) :
    Option (List ℤ) :=
  pyGet data idx

/-- The pad scan of `FlattenedWikitext103Dataset.__init__`, carrying the
Python loop variable `i` (currently `k`): `for i in range(n): if
data[i] == pad_id: break` followed by `self.num_tokens = i`.  On an empty
buffer the loop never binds `i` and the final assignment raises
`NameError`, modelled as `none`. -/
def FlattenedWikitext103Dataset.padScan (pad_id : ℤ) :
    ℕ → List ℤ → Option ℕ
  | _, [] => none
  | k, [_] => some k
  | k, x :: y :: rest =>
      if x = pad_id then some k
      else FlattenedWikitext103Dataset.padScan pad_id (k + 1) (y :: rest)

/-- The value stored in `self.num_tokens` by
`FlattenedWikitext103Dataset.__init__` for a flattened buffer. -/
def FlattenedWikitext103Dataset.num_tokens (pad_id : ℤ) (data : List ℤ) :
    Option ℕ :=
  FlattenedWikitext103Dataset.padScan pad_id 0 data

/-- Length of the flattened sliding-window dataset,
`FlattenedWikitext103Dataset.__len__`:
`num_windows = num_tokens - window_length;
divisor, remainder = divmod(num_windows, stride)`, returning `divisor`
when the remainder is zero and `divisor + 1` otherwise.  Python `divmod`
is floor division with a remainder of the divisor's sign, i.e. `Int.fdiv`
and `Int.fmod`. -/
def FlattenedWikitext103Dataset.len
    (num_tokens window_length stride : ℤ) : ℤ :=
  let num_windows := num_tokens - window_length
  let divisor := Int.fdiv num_windows stride
  let remainder := Int.fmod num_windows stride
  if remainder = 0 then divisor else divisor + 1

/-- Item access of the flattened sliding-window dataset,
`FlattenedWikitext103Dataset.__getitem__`:
`strided_idx = idx * stride; tokens = data[strided_idx : strided_idx +
window_length]; last_label = data[strided_idx + window_length]`.  Only the
final single-element index can raise. -/
def FlattenedWikitext103Dataset.getitem (data : List ℤ)
    (stride window_length : ℤ) (idx : ℤ) : Option (List ℤ × ℤ) :=
  let strided_idx := idx * stride
  let tokens := pySlice data strided_idx (strided_idx + window_length)
  (pyGet data (strided_idx + window_length)).map (fun l => (tokens, l))

lemma FlattenedWikitext103Dataset.len_eq_ceil
    (num_tokens window_length stride : ℤ) (hs : 1 ≤ stride) :
    FlattenedWikitext103Dataset.len num_tokens window_length stride =
      ⌈((num_tokens - window_length : ℤ) : ℚ) / (stride : ℚ)⌉ := by
  simp only [FlattenedWikitext103Dataset.len]
  set a : ℤ := num_tokens - window_length with ha
  set q : ℤ := Int.fdiv a stride with hq
  set r : ℤ := Int.fmod a stride with hr
  have hs0 : (0 : ℤ) < stride := by linarith
  have hsum : stride * q + r = a := Int.fdiv_add_fmod a stride
  have hr0 : 0 ≤ r := Int.fmod_nonneg' a hs0
  have hrlt : r < stride := Int.fmod_lt_of_pos a hs0
  have hsQ : (0 : ℚ) < (stride : ℚ) := by exact_mod_cast hs0
  by_cases h : r = 0
  · simp only [h, if_true]
    have haq : stride * q = a := by rw [h] at hsum; simpa using hsum
    have hdiv : ((a : ℤ) : ℚ) / (stride : ℚ) = ((q : ℤ) : ℚ) := by
      rw [← haq]; push_cast
      rw [mul_comm, mul_div_assoc, div_self (ne_of_gt hsQ), mul_one]
    rw [hdiv, Int.ceil_intCast]
  · simp only [h, if_false]
    symm
    rw [Int.ceil_eq_iff]
    have hr0' : 0 < r := lt_of_le_of_ne hr0 (Ne.symm h)
    constructor
    · have hlt : stride * q < a := by linarith
      have hltq : ((stride : ℚ)) * ((q : ℤ) : ℚ) < ((a : ℤ) : ℚ) := by
        exact_mod_cast hlt
      push_cast
      rw [lt_div_iff₀ hsQ]
      nlinarith [hltq]
    · have hle : a ≤ stride * q + stride := by linarith
      have hleq : ((a : ℤ) : ℚ) ≤ ((stride : ℚ)) * ((q : ℤ) : ℚ) + (stride : ℚ) := by
        exact_mod_cast hle
      push_cast
      rw [div_le_iff₀ hsQ]
      nlinarith [hleq]

/-- C1: for the flattened sliding-window corpus with window length `w`,
stride `s ≥ 1` and usable token count `num_tokens`, `length()` returns
`ceil((num_tokens - w) / s)` (the code computes it as
`divisor + (1 if remainder else 0)` from `divmod`); in particular with
`num_tokens = 1000`, `w = 512`, `s = 256` it returns 2. -/
theorem C1_flattened_len_is_ceil (num_tokens window_length stride : ℤ)
    (hs : 1 ≤ stride) :
    FlattenedWikitext103Dataset.len num_tokens window_length stride =
      ⌈((num_tokens - window_length : ℤ) : ℚ) / (stride : ℚ)⌉ ∧
    FlattenedWikitext103Dataset.len 1000 512 256 = 2 := by
  refine ⟨FlattenedWikitext103Dataset.len_eq_ceil _ _ _ hs, ?_⟩
  decide

/-- Witness for C1 at the concrete configuration of the spec. -/
theorem C1_witness :
    (1 : ℤ) ≤ 256 ∧
    (FlattenedWikitext103Dataset.len 1000 512 256 =
      ⌈((1000 - 512 : ℤ) : ℚ) / (256 : ℚ)⌉ ∧
    FlattenedWikitext103Dataset.len 1000 512 256 = 2) :=
  ⟨by decide, C1_flattened_len_is_ceil 1000 512 256 (by decide)⟩

/-- C2: for every index `i` with `0 ≤ i < length()`, the single-label
position `i * stride + window_length`, and every position `p` of the
full-sequence shifted label window
`[i * stride + 1, i * stride + window_length + 1)`, is strictly less than
`num_tokens`. -/
theorem C2_labels_below_num_tokens
    (num_tokens window_length stride i : ℤ) (hs : 1 ≤ stride)
    (hi : 0 ≤ i)
    (hlen : i < FlattenedWikitext103Dataset.len num_tokens window_length stride) :
    i * stride + window_length < num_tokens ∧
    ∀ p : ℤ, i * stride + 1 ≤ p → p < i * stride + window_length + 1 →
      p < num_tokens := by
  have hmain : i * stride < num_tokens - window_length := by
    simp only [FlattenedWikitext103Dataset.len] at hlen
    set a : ℤ := num_tokens - window_length with ha
    set q : ℤ := Int.fdiv a stride with hq
    set r : ℤ := Int.fmod a stride with hr
    have hs0 : (0 : ℤ) < stride := by linarith
    have hsum : stride * q + r = a := Int.fdiv_add_fmod a stride
    have hr0 : 0 ≤ r := Int.fmod_nonneg' a hs0
    have hrlt : r < stride := Int.fmod_lt_of_pos a hs0
    by_cases h : r = 0
    · simp only [h, if_true] at hlen
      have h1 : i ≤ q - 1 := by linarith
      have h2 : i * stride ≤ (q - 1) * stride :=
        mul_le_mul_of_nonneg_right h1 (le_of_lt hs0)
      nlinarith
    · simp only [h, if_false] at hlen
      have hr0' : 0 < r := lt_of_le_of_ne hr0 (Ne.symm h)
      have h1 : i ≤ q := by linarith
      have h2 : i * stride ≤ q * stride :=
        mul_le_mul_of_nonneg_right h1 (le_of_lt hs0)
      nlinarith
  refine ⟨by linarith, fun p h1 h2 => by linarith⟩

/-- Witness for C2: with `num_tokens = 1000`, `window_length = 512`,
`stride = 256`, index 1 is valid and its single-label position
`1 * 256 + 512 = 768` is below 1000. -/
theorem C2_witness :
    (1 : ℤ) ≤ 256 ∧ (0 : ℤ) ≤ 1 ∧
    (1 : ℤ) < FlattenedWikitext103Dataset.len 1000 512 256 ∧
    (1 : ℤ) * 256 + 512 < 1000 :=
  ⟨by decide, by decide, by decide,
    (C2_labels_below_num_tokens 1000 512 256 1 (by decide) (by decide)
      (by decide)).1⟩

/-- Counterexample for C9 as stated: with `num_tokens = 0`,
`window_length = 512`, `stride = 256` (so `num_tokens < window_length`),
`length()` returns the negative value -2 instead of 0. -/
theorem C9_counterexample :
    FlattenedWikitext103Dataset.len 0 512 256 = -2 ∧
    FlattenedWikitext103Dataset.len 0 512 256 < 0 := by
  constructor <;> decide

/-- C9 amended: when `num_tokens < window_length` and `stride ≥ 1`,
`length()` returns 0 exactly when the deficit `window_length - num_tokens`
is smaller than `stride`, and returns a negative value exactly when the
deficit is at least `stride`; the computation itself never raises. -/
theorem C9_amended_short_corpus_len
    (num_tokens window_length stride : ℤ) (hs : 1 ≤ stride)
    (hlt : num_tokens < window_length) :
    (FlattenedWikitext103Dataset.len num_tokens window_length stride = 0 ↔
      window_length - num_tokens < stride) ∧
    (FlattenedWikitext103Dataset.len num_tokens window_length stride < 0 ↔
      stride ≤ window_length - num_tokens) := by
  rw [FlattenedWikitext103Dataset.len_eq_ceil num_tokens window_length stride hs]
  have hs0 : (0 : ℤ) < stride := by linarith
  have hsQ : (0 : ℚ) < (stride : ℚ) := by exact_mod_cast hs0
  set x : ℚ := ((num_tokens - window_length : ℤ) : ℚ) / (stride : ℚ) with hx
  have hxneg : x < 0 := by
    apply div_neg_of_neg_of_pos
    · have hz : (num_tokens - window_length : ℤ) < 0 := by linarith
      exact_mod_cast hz
    · exact hsQ
  have hceil_le : ⌈x⌉ ≤ 0 := Int.ceil_le.mpr (by push_cast; linarith)
  have key : ⌈x⌉ = 0 ↔ window_length - num_tokens < stride := by
    rw [Int.ceil_eq_zero_iff, Set.mem_Ioc]
    constructor
    · rintro ⟨h1, _⟩
      rw [hx, lt_div_iff₀ hsQ] at h1
      have h2 : ((-stride : ℤ) : ℚ) < ((num_tokens - window_length : ℤ) : ℚ) := by
        push_cast at h1 ⊢
        linarith
      have h3 : (-stride : ℤ) < num_tokens - window_length := by exact_mod_cast h2
      linarith
    · intro h
      refine ⟨?_, le_of_lt hxneg⟩
      rw [hx, lt_div_iff₀ hsQ]
      have h3 : (-stride : ℤ) < num_tokens - window_length := by linarith
      have h2 : ((-stride : ℤ) : ℚ) < ((num_tokens - window_length : ℤ) : ℚ) := by
        exact_mod_cast h3
      push_cast at h2 ⊢
      linarith
  refine ⟨key, ?_, ?_⟩
  · intro h
    by_contra hcon
    push_neg at hcon
    have h2 := key.mpr hcon
    omega
  · intro h
    rcases lt_or_eq_of_le hceil_le with hl | he
    · exact hl
    · exfalso
      have h2 := key.mp he
      omega

/-- Witness for C9 amended at `num_tokens = 100`, `window_length = 512`,
`stride = 256`. -/
theorem C9_witness :
    (1 : ℤ) ≤ 256 ∧ (100 : ℤ) < 512 ∧
    ((FlattenedWikitext103Dataset.len 100 512 256 = 0 ↔
      (512 : ℤ) - 100 < 256) ∧
    (FlattenedWikitext103Dataset.len 100 512 256 < 0 ↔
      (256 : ℤ) ≤ 512 - 100)) :=
  ⟨by decide, by decide,
    C9_amended_short_corpus_len 100 512 256 (by decide) (by decide)⟩

lemma FlattenedWikitext103Dataset.padScan_eq (pad : ℤ) (data : List ℤ) :
    ∀ k : ℕ, data ≠ [] →
      FlattenedWikitext103Dataset.padScan pad k data =
        some (k + if pad ∈ data then List.indexOf pad data
                  else data.length - 1) := by
  induction data with
  | nil => intro k h; exact absurd rfl h
  | cons x xs ih =>
    intro k _
    cases xs with
    | nil =>
      by_cases hx : x = pad
      · subst hx
        simp [FlattenedWikitext103Dataset.padScan, List.indexOf_cons_self]
      · have hmem : pad ∉ [x] := by simp [Ne.symm hx]
        rw [if_neg hmem]
        simp [FlattenedWikitext103Dataset.padScan]
    | cons y rest =>
      by_cases hx : x = pad
      · subst hx
        simp [FlattenedWikitext103Dataset.padScan, List.indexOf_cons_self]
      · have hne : x ≠ pad := hx
        have hstep : FlattenedWikitext103Dataset.padScan pad k (x :: y :: rest) =
            FlattenedWikitext103Dataset.padScan pad (k + 1) (y :: rest) := by
          simp [FlattenedWikitext103Dataset.padScan, hne]
        rw [hstep, ih (k + 1) (by simp)]
        by_cases hmem : pad ∈ y :: rest
        · have hmem' : pad ∈ x :: y :: rest := List.mem_cons_of_mem _ hmem
          rw [if_pos hmem, if_pos hmem', List.indexOf_cons_ne _ hne]
          simp only [Option.some.injEq, Nat.succ_eq_add_one]
          omega
        · have hmem' : pad ∉ x :: y :: rest := by
            simp only [List.mem_cons, not_or]
            exact ⟨Ne.symm hne, by simpa [List.mem_cons] using hmem⟩
          rw [if_neg hmem, if_neg hmem']
          simp only [Option.some.injEq, List.length_cons]
          omega

/-- Counterexample for C3 as stated: the flattened buffer `[1, 2, 3]`
contains no pad token (pad id 0), yet the constructor stores
`num_tokens = 2`, not the buffer length 3 — the Python loop variable
retains the final index `len - 1` when the loop finishes without a
break. -/
theorem C3_counterexample :
    FlattenedWikitext103Dataset.num_tokens 0 [1, 2, 3] = some 2 ∧
    (0 : ℤ) ∉ ([1, 2, 3] : List ℤ) ∧
    ([1, 2, 3] : List ℤ).length = 3 ∧
    FlattenedWikitext103Dataset.num_tokens 0 [1, 2, 3] ≠ some 3 :=
  ⟨by decide, by decide, by decide, by decide⟩

/-- C3 amended: for every nonempty buffer, construction stores
`num_tokens` equal to the index of the first occurrence of the pad token
when one exists, and to the buffer length minus 1 (not the buffer length)
when no pad token exists; on an empty buffer the constructor faults. -/
theorem C3_amended_num_tokens (pad : ℤ) (data : List ℤ) (hne : data ≠ []) :
    FlattenedWikitext103Dataset.num_tokens pad data =
      some (if pad ∈ data then List.indexOf pad data
            else data.length - 1) := by
  simpa [FlattenedWikitext103Dataset.num_tokens] using
    FlattenedWikitext103Dataset.padScan_eq pad data 0 hne

/-- Witness for C3 amended on the pad-free buffer `[1, 2, 3]`. -/
theorem C3_witness :
    ([1, 2, 3] : List ℤ) ≠ [] ∧
    FlattenedWikitext103Dataset.num_tokens 0 [1, 2, 3] =
      some (if (0 : ℤ) ∈ ([1, 2, 3] : List ℤ)
            then List.indexOf (0 : ℤ) [1, 2, 3]
            else ([1, 2, 3] : List ℤ).length - 1) :=
  ⟨by decide, C3_amended_num_tokens 0 [1, 2, 3] (by decide)⟩

/-- Full-sequence label construction of `_calculate_loss` (non-sliding
branch): per batch row, `labels = torch.cat([data[:, 1:],
last_labels.unsqueeze(1)], dim=1)` — the input shifted left by one with
the stored last label appended. -/
def Wikitext103Model.full_label (tokens : List ℤ) (last_label : ℤ) : List ℤ :=
  tokens.drop 1 ++ [last_label]

/-- C4: for every valid `i` in `[0, length())` of the packed corpus with
rows of length `L`, `get(i)` succeeds, the input row of `get(i+1)`
exists, the full-sequence label's first `L - 1` tokens equal `get(i)`'s
input's last `L - 1` tokens, and the label's final token equals
`get(i+1)`'s input's first token. -/
theorem C4_packed_full_label (data : List (List ℤ)) (L : ℕ) (i : ℤ)
    (hL : data.all (fun row => row.length == L) = true) (hL1 : 1 ≤ L)
    (h0 : 0 ≤ i) (hi : i < Wikitext103Dataset.len data) :
    ∃ tok lastLab nextTok,
      Wikitext103Dataset.getitem data i = some (tok, lastLab) ∧
      Wikitext103Dataset.input data (i + 1) = some nextTok ∧
      (Wikitext103Model.full_label tok lastLab).take (L - 1) = tok.drop 1 ∧
      (Wikitext103Model.full_label tok lastLab).getLast? = some lastLab ∧
      nextTok.head? = some lastLab := by
  simp only [Wikitext103Dataset.len] at hi
  set n := i.toNat with hn
  have hn2 : n + 1 < data.length := by omega
  have hn1 : n < data.length := by omega
  obtain ⟨row, hrow⟩ : ∃ r, data.get? n = some r :=
    ⟨_, by rw [List.get?_eq_getElem?, List.getElem?_eq_getElem hn1]⟩
  obtain ⟨row', hrow'⟩ : ∃ r, data.get? (n + 1) = some r :=
    ⟨_, by rw [List.get?_eq_getElem?, List.getElem?_eq_getElem hn2]⟩
  have hpy1 : pyGet data i = some row := by
    simp only [pyGet, if_pos h0]
    exact hrow
  have h01 : (0 : ℤ) ≤ i + 1 := by omega
  have htn : (i + 1).toNat = n + 1 := by omega
  have hpy2 : pyGet data (i + 1) = some row' := by
    simp only [pyGet, if_pos h01, htn]
    exact hrow'
  have hrowmem' : row' ∈ data := List.get?_mem hrow'
  have hrowlen' : row'.length = L := by
    have h := List.all_eq_true.mp hL row' hrowmem'
    simpa using h
  obtain ⟨a, t', hrow'eq⟩ : ∃ a t, row' = a :: t := by
    cases row' with
    | nil => simp at hrowlen'; omega
    | cons a t => exact ⟨a, t, rfl⟩
  have hpy3 : pyGet row' 0 = some a := by
    simp [pyGet, hrow'eq]
  have hrowmem : row ∈ data := List.get?_mem hrow
  have hrowlen : row.length = L := by
    have h := List.all_eq_true.mp hL row hrowmem
    simpa using h
  refine ⟨row, a, row', ?_, ?_, ?_, ?_, ?_⟩
  · simp [Wikitext103Dataset.getitem, hpy1, hpy2, hpy3]
  · simp [Wikitext103Dataset.input, hpy2]
  · have hd : (row.drop 1).length = L - 1 := by
      simp [List.length_drop, hrowlen]
    exact List.take_left' hd
  · exact List.getLast?_concat _
  · simp [hrow'eq]

/-- Witness for C4 on the dense packed buffer with 3 rows of length 2. -/
theorem C4_witness :
    (([[1, 2], [3, 4], [5, 6]] : List (List ℤ)).all
      (fun row => row.length == 2) = true) ∧
    (1 : ℕ) ≤ 2 ∧ (0 : ℤ) ≤ 0 ∧
    (0 : ℤ) < Wikitext103Dataset.len [[1, 2], [3, 4], [5, 6]] ∧
    (∃ tok lastLab nextTok,
      Wikitext103Dataset.getitem [[1, 2], [3, 4], [5, 6]] 0 =
        some (tok, lastLab) ∧
      Wikitext103Dataset.input [[1, 2], [3, 4], [5, 6]] (0 + 1) =
        some nextTok ∧
      (Wikitext103Model.full_label tok lastLab).take (2 - 1) = tok.drop 1 ∧
      (Wikitext103Model.full_label tok lastLab).getLast? = some lastLab ∧
      nextTok.head? = some lastLab) :=
  ⟨by decide, by decide, by decide, by decide,
    C4_packed_full_label [[1, 2], [3, 4], [5, 6]] 2 0 (by decide) (by decide)
      (by decide) (by decide)⟩

/-- Counterexample for C8 as stated.  Flattened buffer `[1, 2, 3, 0, 0]`
with pad id 0 has `num_tokens = 3`; with `stride = 1` and
`window_length = 2`, index 2 has label position `2 * 1 + 2 = 4 > 3`, so
per the claim it must raise `IndexError` — but the code silently returns
the window `[3, 0]` with pad label 0, because indexing is bounded by the
physical buffer length 5, not by `num_tokens`.  Likewise, on the packed
corpus `i = -1` lies outside `[0, R - 1)` yet succeeds via Python
negative-index wrap-around. -/
theorem C8_counterexample :
    FlattenedWikitext103Dataset.num_tokens 0 [1, 2, 3, 0, 0] = some 3 ∧
    (3 : ℤ) < 2 * 1 + 2 ∧
    FlattenedWikitext103Dataset.getitem [1, 2, 3, 0, 0] 1 2 2 =
      some ([3, 0], 0) ∧
    FlattenedWikitext103Dataset.getitem [1, 2, 3, 0, 0] 1 2 2 ≠ none ∧
    Wikitext103Dataset.getitem [[1, 2], [3, 4], [5, 6]] (-1) =
      some ([5, 6], 1) :=
  ⟨by decide, by decide, by decide, by decide, by decide⟩

/-- C8 amended: the faults are bounded by the physical buffers, not by
`num_tokens`.  On the packed corpus every `i ≥ R - 1` raises
`IndexError`; on the flattened corpus a nonnegative index raises
`IndexError` exactly when `i * stride + window_length` reaches the full
flattened buffer length (so label positions in
`[num_tokens, buffer length)` are served silently, possibly returning pad
tokens, and in-range negative indices are accepted via Python
wrap-around rather than rejected). -/
theorem C8_amended_index_faults :
    (∀ (data : List (List ℤ)) (i : ℤ),
      (data.length : ℤ) - 1 ≤ i → Wikitext103Dataset.getitem data i = none) ∧
    (∀ (data : List ℤ) (stride window_length i : ℤ),
      1 ≤ stride → 0 ≤ window_length → 0 ≤ i →
      (FlattenedWikitext103Dataset.getitem data stride window_length i = none ↔
        (data.length : ℤ) ≤ i * stride + window_length)) := by
  constructor
  · intro data i h
    have h1 : (0 : ℤ) ≤ i + 1 := by omega
    have h2 : data.length ≤ (i + 1).toNat := by omega
    have hnone : pyGet data (i + 1) = none := by
      simp only [pyGet, if_pos h1]
      exact List.get?_eq_none.mpr h2
    cases hx : pyGet data i <;>
      simp [Wikitext103Dataset.getitem, hx, hnone]
  · intro data stride window_length i hs hw hi
    have hmul : 0 ≤ i * stride := mul_nonneg hi (by linarith)
    have hpos : 0 ≤ i * stride + window_length := by linarith
    simp only [FlattenedWikitext103Dataset.getitem]
    rw [Option.map_eq_none']
    simp only [pyGet, if_pos hpos]
    rw [List.get?_eq_none]
    omega

/-- Witness for C8 amended: on a 2-row packed buffer index 1 faults, and
on the 5-token flattened buffer index 5 with stride 1 and window 2
faults exactly because `5 * 1 + 2` reaches the buffer length. -/
theorem C8_witness :
    Wikitext103Dataset.getitem [[1, 2], [3, 4]] 1 = none ∧
    (FlattenedWikitext103Dataset.getitem [1, 2, 3, 0, 0] 1 2 5 = none ↔
      ((([1, 2, 3, 0, 0] : List ℤ).length : ℤ) ≤ 5 * 1 + 2)) :=
  ⟨C8_amended_index_faults.1 [[1, 2], [3, 4]] 1 (by decide),
   C8_amended_index_faults.2 [1, 2, 3, 0, 0] 1 2 5 (by decide) (by decide)
     (by decide)⟩

/-- A named parameter as seen by `self.named_parameters()`: a name and an
optional gradient (`None` when no backward pass touched it).  Gradient
entries are integers so that squared L2 norms are exact. -/
structure GradParam where
  name : String
  grad : Option (List ℤ)

/-- The squared L2 norm `p.grad.detach().data.norm(2).item() ** 2` of a
gradient tensor: the sum of the squares of its entries. -/
def GradParam.param_norm (g : List ℤ) : ℤ :=
  (g.map (fun x => x * x)).sum

/-- Python `str.startswith` on character lists: character-by-character
comparison of the candidate head against the whole pattern. -/
def pyStartsWith : List Char → List Char → Bool
  | _, [] => true
  | [], _ :: _ => false
  | c :: s, p :: ps => c == p && pyStartsWith s ps

/-- The layer attribution of `training_step`: the first `i` in
`range(num_layers)` such that the parameter name starts with the
character sequence of `transformer.layers.` followed by the decimal
digits of `i` (the f-string pattern of the source), if any. -/
def Wikitext103Model.layer_of (num_layers : ℕ) (name : String) : Option ℕ :=
  (List.range num_layers).find?
    (fun i => pyStartsWith name.toList
      ("transformer.layers.".toList ++ Nat.toDigits 10 i))

/-- Gradient-norm diagnostics of `training_step`, lines 142-154: starting
from `total_norm = 0.0` and `layer_grad_norms = [0.0] * num_layers`, each
parameter with a non-null gradient adds its squared norm to the total and
to the first matching layer slot (`break` after the first match;
parameters matching no layer only contribute to the total).  The result
is the pair (total before the final square root, per-layer list exactly
as logged): the source's `for norm in layer_grad_norms: norm = norm **
(1. / 2)` rebinds the loop variable and leaves the list unchanged, so the
logged per-layer values are these squared norms, while the logged global
value is the square root of the first component. -/
def Wikitext103Model.grad_norms (num_layers : ℕ) (params : List GradParam) :
    ℤ × List ℤ :=
  params.foldl
    (fun acc p =>
      match p.grad with
      | none => acc
      | some g =>
        let pn := GradParam.param_norm g
        let layers :=
          match Wikitext103Model.layer_of num_layers p.name with
          | some i => acc.2.set i (acc.2.getD i 0 + pn)
          | none => acc.2
        (acc.1 + pn, layers))
    (0, List.replicate num_layers 0)

/-- The failing parameter set for C5: a single parameter under layer 3
with gradient `[3, 4]` (L2 norm 5), plus one null-gradient parameter. -/
def c5_params : List GradParam :=
  [⟨"transformer.layers.3.weight", some [3, 4]⟩,
   ⟨"token_embedding.weight", none⟩]

/-- C5 divergence: with non-null gradients only under layer 3 (gradient
`[3, 4]`, L2 norm 5), the per-layer vector is zero except at index 3 as
claimed, and the logged global norm is `sqrt 25 = 5` — but the logged
per-layer value at index 3 is the squared norm 25, not the gradient L2
norm 5, because the square-root loop in the source rebinds its loop
variable without updating the list. -/
theorem C5_code_bug_layer_norm_not_sqrted :
    Wikitext103Model.grad_norms 4 c5_params = (25, [0, 0, 0, 25]) ∧
    Real.sqrt 25 = 5 ∧
    ((25 : ℝ) ≠ 5) := by
  refine ⟨by decide, ?_, by norm_num⟩
  rw [show (25 : ℝ) = 5 ^ 2 by norm_num,
    Real.sqrt_sq (by norm_num : (0 : ℝ) ≤ 5)]

/-- State stored by `CosineWarmupScheduler.__init__`: `self.warmup` and
`self.max_num_iters`. -/
structure CosineWarmupScheduler where
  warmup : ℤ
  max_num_iters : ℤ

/-- The constructor `CosineWarmupScheduler.__init__` performs no
validation of its own: it stores `warmup` and `max_iters` and delegates
to the base class.  An `Except` result models whether a configuration
error is reported; the source never reports one. -/
def CosineWarmupScheduler.init (warmup max_iters : ℤ) :
    Except String CosineWarmupScheduler :=
  Except.ok ⟨warmup, max_iters⟩

/-- The learning-rate factor `CosineWarmupScheduler.get_lr_factor`:
`lr_factor = 0.5 * (1 + cos(pi * epoch / max_num_iters))`, then
`lr_factor *= epoch * 1.0 / warmup` when `epoch <= warmup`. -/
noncomputable def CosineWarmupScheduler.get_lr_factor
    (s : CosineWarmupScheduler) (epoch : ℤ) : ℝ :=
  let lr_factor : ℝ :=
    0.5 * (1 + Real.cos (Real.pi * (epoch : ℝ) / (s.max_num_iters : ℝ)))
  if epoch ≤ s.warmup then lr_factor * ((epoch : ℝ) * 1.0 / (s.warmup : ℝ))
  else lr_factor

/-- Fault-tracking version of `get_lr_factor`: Python raises
`ZeroDivisionError` when a division's denominator is zero (`pi * epoch /
max_num_iters` with `max_num_iters = 0`, or `epoch * 1.0 / warmup` with
`warmup = 0` on the warmup branch); `none` models the raise, otherwise
the value agrees with `get_lr_factor`. -/
noncomputable def CosineWarmupScheduler.get_lr_factor_checked
    (s : CosineWarmupScheduler) (epoch : ℤ) : Option ℝ :=
  if s.max_num_iters = 0 then none
  else
    let lr_factor : ℝ :=
      0.5 * (1 + Real.cos (Real.pi * (epoch : ℝ) / (s.max_num_iters : ℝ)))
    if epoch ≤ s.warmup then
      if s.warmup = 0 then none
      else some (lr_factor * ((epoch : ℝ) * 1.0 / (s.warmup : ℝ)))
    else some lr_factor

/-- C6: for positive `warmup`, the factor is the cosine curve
`0.5 * (1 + cos(pi * step / total_steps))` scaled by `step / warmup`
whenever `step ≤ warmup` and unscaled afterwards; consequently
`factor(0) = 0` and `factor(warmup)` equals the unscaled cosine value at
`warmup`. -/
theorem C6_cosine_warmup_factor (warmup max_iters step : ℤ)
    (hw : 0 < warmup) :
    (step ≤ warmup →
      CosineWarmupScheduler.get_lr_factor ⟨warmup, max_iters⟩ step =
        0.5 * (1 + Real.cos (Real.pi * (step : ℝ) / (max_iters : ℝ))) *
          ((step : ℝ) / (warmup : ℝ))) ∧
    (warmup < step →
      CosineWarmupScheduler.get_lr_factor ⟨warmup, max_iters⟩ step =
        0.5 * (1 + Real.cos (Real.pi * (step : ℝ) / (max_iters : ℝ)))) ∧
    CosineWarmupScheduler.get_lr_factor ⟨warmup, max_iters⟩ 0 = 0 ∧
    CosineWarmupScheduler.get_lr_factor ⟨warmup, max_iters⟩ warmup =
      0.5 * (1 + Real.cos (Real.pi * (warmup : ℝ) / (max_iters : ℝ))) := by
  have hwR : ((warmup : ℝ)) ≠ 0 := by
    have : (0 : ℝ) < (warmup : ℝ) := by exact_mod_cast hw
    linarith
  refine ⟨?_, ?_, ?_, ?_⟩
  · intro h
    simp only [CosineWarmupScheduler.get_lr_factor, if_pos h]
    ring
  · intro h
    simp only [CosineWarmupScheduler.get_lr_factor, if_neg (not_le.mpr h)]
  · have h0 : (0 : ℤ) ≤ warmup := le_of_lt hw
    simp only [CosineWarmupScheduler.get_lr_factor, if_pos h0]
    push_cast
    ring
  · simp only [CosineWarmupScheduler.get_lr_factor, if_pos (le_refl warmup)]
    field_simp
    norm_num

/-- Witness for C6 at `warmup = 2`, `total_steps = 10`: the factor at
step 0 is 0, at step 2 it is the unscaled cosine value, and at step 1 it
is the ramped cosine value. -/
theorem C6_witness :
    (0 : ℤ) < 2 ∧
    CosineWarmupScheduler.get_lr_factor ⟨2, 10⟩ 0 = 0 ∧
    CosineWarmupScheduler.get_lr_factor ⟨2, 10⟩ 2 =
      0.5 * (1 + Real.cos (Real.pi * ((2 : ℤ) : ℝ) / ((10 : ℤ) : ℝ))) ∧
    CosineWarmupScheduler.get_lr_factor ⟨2, 10⟩ 1 =
      0.5 * (1 + Real.cos (Real.pi * ((1 : ℤ) : ℝ) / ((10 : ℤ) : ℝ))) *
        (((1 : ℤ) : ℝ) / ((2 : ℤ) : ℝ)) :=
  ⟨by decide, (C6_cosine_warmup_factor 2 10 0 (by decide)).2.2.1,
    (C6_cosine_warmup_factor 2 10 2 (by decide)).2.2.2,
    (C6_cosine_warmup_factor 2 10 1 (by decide)).1 (by decide)⟩

/-- Counterexample for C7 as stated: `warmup_steps = 0` is accepted at
construction without any configuration error, and the very first factor
evaluation (step 0, which the base class performs during construction)
raises `ZeroDivisionError` — the guard the claim requires does not
exist. -/
theorem C7_counterexample :
    CosineWarmupScheduler.init 0 100 = Except.ok ⟨0, 100⟩ ∧
    CosineWarmupScheduler.get_lr_factor_checked ⟨0, 100⟩ 0 = none := by
  constructor
  · rfl
  · simp [CosineWarmupScheduler.get_lr_factor_checked]

/-- C7 amended: the constructor performs no validation whatsoever — every
configuration (zero or negative `warmup_steps`, `total_steps ≤ 0`) is
accepted as-is — and `warmup_steps = 0` is not guarded: it surfaces as a
division-by-zero fault at the first evaluation of the factor function. -/
theorem C7_amended_no_construction_guard :
    (∀ warmup max_iters : ℤ,
      CosineWarmupScheduler.init warmup max_iters =
        Except.ok ⟨warmup, max_iters⟩) ∧
    (∀ max_iters : ℤ, max_iters ≠ 0 →
      CosineWarmupScheduler.get_lr_factor_checked ⟨0, max_iters⟩ 0 = none) ∧
    (∀ epoch : ℤ,
      CosineWarmupScheduler.get_lr_factor_checked ⟨1, 0⟩ epoch = none) := by
  refine ⟨fun _ _ => rfl, ?_, ?_⟩
  · intro max_iters h
    simp [CosineWarmupScheduler.get_lr_factor_checked, h]
  · intro epoch
    simp [CosineWarmupScheduler.get_lr_factor_checked]

/-- Witness for C7 amended: negative warmup and zero total steps are
accepted at construction, and zero configurations fault at first use. -/
theorem C7_witness :
    CosineWarmupScheduler.init (-5) 0 = Except.ok ⟨-5, 0⟩ ∧
    ((100 : ℤ) ≠ 0) ∧
    CosineWarmupScheduler.get_lr_factor_checked ⟨0, 100⟩ 0 = none ∧
    CosineWarmupScheduler.get_lr_factor_checked ⟨1, 0⟩ 7 = none :=
  ⟨C7_amended_no_construction_guard.1 (-5) 0, by decide,
    C7_amended_no_construction_guard.2.1 100 (by decide),
    C7_amended_no_construction_guard.2.2 7⟩

/-- Log-sum-exp of a logit vector, the normalizer of softmax
cross-entropy. -/
noncomputable def logsumexp (v : List ℝ) : ℝ :=
  Real.log ((v.map Real.exp).sum)

/-- Cross-entropy loss `F.cross_entropy(preds, targets)` with
class-index targets and the default mean reduction: the mean over the
batch of `logsumexp(pred) - pred[target]`. -/
noncomputable def cross_entropy (preds : List (List ℝ)) (targets : List ℤ) :
    ℝ :=
  let pairs := preds.zip targets
  ((pairs.map (fun pt => logsumexp pt.1 - pt.1.getD pt.2.toNat 0)).sum) /
    (pairs.length : ℝ)

/-- The loss of `Wikitext103Model._calculate_loss`, parameterized by the
external model collaborator (`preds = self(data)` applied per batch
row).  Sliding branch: `preds = preds[:, -1]` (the final window
position) and `F.cross_entropy(preds, last_labels)`.  Non-sliding
branch: full-sequence labels `torch.cat([data[:, 1:],
last_labels.unsqueeze(1)], dim=1)` with logits and labels flattened over
batch and positions. -/
noncomputable def Wikitext103Model.calculate_loss
    (model : List ℤ → List (List ℝ)) (data : List (List ℤ))
    (last_labels : List ℤ) (sliding : Bool) : ℝ :=
  let preds := data.map model
  if sliding then
    cross_entropy (preds.map (fun p => p.getLastD [])) last_labels
  else
    cross_entropy preds.flatten
      (((data.zip last_labels).map
        (fun dl => Wikitext103Model.full_label dl.1 dl.2)).flatten)

/-- C10: in sliding mode (the validation path), the loss is the
cross-entropy between the logits at the final window position only and
the single next-token labels, and logits at every earlier position do
not influence the result: two models agreeing on the final-position
logits over the batch produce the same sliding loss. -/
theorem C10_sliding_loss_last_position_only
    (m m' : List ℤ → List (List ℝ)) (data : List (List ℤ))
    (last_labels : List ℤ)
    (h : data.map (fun x => (m x).getLastD []) =
      data.map (fun x => (m' x).getLastD [])) :
    Wikitext103Model.calculate_loss m data last_labels true =
      cross_entropy (data.map (fun x => (m x).getLastD [])) last_labels ∧
    Wikitext103Model.calculate_loss m data last_labels true =
      Wikitext103Model.calculate_loss m' data last_labels true := by
  constructor
  · simp only [Wikitext103Model.calculate_loss, if_true, List.map_map]
    rfl
  · simp only [Wikitext103Model.calculate_loss, if_true, List.map_map]
    exact congrArg (fun l => cross_entropy l last_labels) h

/-- Example model for the C10 witness, with distinctive logits at the
earlier window position. -/
noncomputable def c10_model_a : List ℤ → List (List ℝ) :=
  fun _ => [[1, 2], [3, 4]]

/-- Second example model for the C10 witness: same final-position logits
as the first, different earlier-position logits. -/
noncomputable def c10_model_b : List ℤ → List (List ℝ) :=
  fun _ => [[9, 9], [3, 4]]

/-- Witness for C10: the two example models differ at the earlier window
position but agree at the final one, and their sliding losses coincide. -/
theorem C10_witness :
    (([[0]] : List (List ℤ)).map (fun x => (c10_model_a x).getLastD []) =
      ([[0]] : List (List ℤ)).map (fun x => (c10_model_b x).getLastD [])) ∧
    (Wikitext103Model.calculate_loss c10_model_a [[0]] [0] true =
      cross_entropy
        (([[0]] : List (List ℤ)).map (fun x => (c10_model_a x).getLastD []))
        [0] ∧
    Wikitext103Model.calculate_loss c10_model_a [[0]] [0] true =
      Wikitext103Model.calculate_loss c10_model_b [[0]] [0] true) :=
  ⟨rfl, C10_sliding_loss_last_position_only c10_model_a c10_model_b
    [[0]] [0] rfl⟩
